import Mathlib

/-
Verification of the progressive tax calculator in
project/tools/country_tax_db.py (function calculate_tax_liability and the
static TAX_RULES table).  Python floats are modelled as exact rationals;
Python dicts with optional keys are modelled as structures of Option
fields, with the dict .get default captured by Option.getD.
-/

/-- The capital_gains sub-dictionary of a TAX_RULES entry.  Each Python key
that may or may not be present is an Option field; a key test such as
"long_term" in cg_rules is Option.isSome of the field. -/
structure CapitalGainsRules where
  short_term : Option ℚ := none
  long_term : Option ℚ := none
  allowance : Option ℚ := none
  basic_rate : Option ℚ := none
  higher_rate : Option ℚ := none
  inclusion_rate : Option ℚ := none
  rate_1 : Option ℚ := none
  rate_2 : Option ℚ := none
  individual : Option ℚ := none
deriving DecidableEq

/-- One entry of the India slabs list: a Python dict holding either an
up_to key or an above key, together with a rate. -/
inductive Slab where
  | upTo (limit : ℚ) (rate : ℚ)
  | above (limit : ℚ) (rate : ℚ)
deriving DecidableEq

/-- One country entry of the TAX_RULES dictionary.  Keys that only some
countries carry are Option fields.  Canada stores its bracket data under
federal_tax_brackets and federal_rates, not under income_brackets and
rates, exactly as in the source. -/
structure CountryRules where
  capital_gains : CapitalGainsRules
  income_brackets : Option (List ℚ) := none
  rates : Option (List ℚ) := none
  tax_free_threshold : Option ℚ := none
  slabs : Option (List Slab) := none
  federal_tax_brackets : Option (List ℚ) := none
  federal_rates : Option (List ℚ) := none
  currency : String
deriving DecidableEq

/-- The TAX_RULES dictionary of country_tax_db.py, keyed by country name. -/
def TAX_RULES : String → Option CountryRules
  | "USA" => some
      { capital_gains := { short_term := some 37, long_term := some 20 }
        income_brackets := some [0, 10475, 41885, 89405, 174050, 214200, 539900]
        rates := some [0.10, 0.12, 0.22, 0.24, 0.32, 0.35, 0.37]
        currency := "USD" }
  | "India" => some
      { capital_gains := { short_term := some 15, long_term := some 12.5 }
        tax_free_threshold := some 400000
        slabs := some [Slab.upTo 800000 0.05, Slab.upTo 1200000 0.10,
          Slab.upTo 1600000 0.15, Slab.upTo 2000000 0.20,
          Slab.upTo 2400000 0.25, Slab.above 2400000 0.30]
        currency := "INR" }
  | "UK" => some
      { capital_gains :=
          { allowance := some 6000
            basic_rate := some 10
            higher_rate := some 20 }
        income_brackets := some [0, 12570, 50270, 125140]
        rates := some [0.00, 0.20, 0.40, 0.45]
        currency := "GBP" }
  | "Canada" => some
      { capital_gains :=
          { inclusion_rate := some 0.5
            rate_1 := some 15
            rate_2 := some 27 }
        federal_tax_brackets := some [0, 53359, 106717, 165430, 235675]
        federal_rates := some [0.15, 0.205, 0.26, 0.29, 0.33]
        currency := "CAD" }
  | "France" => some
      { capital_gains := { individual := some 30 }
        income_brackets := some [0, 11094, 28218, 80297, 170000]
        rates := some [0.00, 0.11, 0.30, 0.41, 0.45]
        currency := "EUR" }
  | "Germany" => some
      { capital_gains := { individual := some 26.375 }
        income_brackets := some [0, 11604, 63469, 277825]
        rates := some [0.00, 0.14, 0.42, 0.45]
        currency := "EUR" }
  | "Italy" => some
      { capital_gains := { individual := some 26 }
        income_brackets := some [0, 15000, 28000, 50000, 75000, 120000, 150000]
        rates := some [0.23, 0.25, 0.35, 0.43, 0.45, 0.47, 0.47]
        currency := "EUR" }
  | "Japan" => some
      { capital_gains := { individual := some 20.315 }
        income_brackets := some [0, 1950000, 3300000, 6950000, 9000000, 18000000, 40000000]
        rates := some [0.05, 0.10, 0.20, 0.23, 0.33, 0.40, 0.45]
        currency := "JPY" }
  | _ => none

/-- get_supported_countries of country_tax_db.py: the key list of
TAX_RULES in insertion order. -/
def get_supported_countries : List String :=
  ["USA", "India", "UK", "Canada", "France", "Germany", "Italy", "Japan"]

/-- The python loop of the standard bracket system: it walks the list of
(bracket size, rate) pairs, taxing a full bracket and moving on while the
remaining income exceeds the bracket size, and otherwise taxing the
remainder at the current rate and stopping.  Returns the pair
(accumulated income tax, remaining income at loop exit), matching the
variables income_tax and remaining_income of the source. -/
def bracketLoop : List (ℚ × ℚ) → ℚ → ℚ × ℚ
  | [], rem => (0, rem)
  | (s, r) :: rest, rem =>
    if s < rem then
      let p := bracketLoop rest (rem - s)
      (s * r + p.1, p.2)
    else (rem * r, 0)

/-- The bracket loop followed by the trailing clause of the source that
taxes any still-remaining income at the last rate.  The source guards the
trailing clause by remaining_income > 0 and len(rates) > 0; this helper is
the len(rates) > 0 case, with the last rate passed in. -/
def loopTax (pairs : List (ℚ × ℚ)) (lastRate : ℚ) (income : ℚ) : ℚ :=
  let p := bracketLoop pairs income
  if 0 < p.2 then p.1 + p.2 * lastRate else p.1

/-- The standard bracket branch of calculate_tax_liability: bracket sizes
are the successive differences brackets[i+1] - brackets[i] paired with
rates[i]; if the bracket and rate lists differ in length the income tax is
left at 0, as in the source. -/
def stdIncomeTax (brackets rates : List ℚ) (income : ℚ) : ℚ :=
  if brackets.length = rates.length then
    if rates = [] then
      (bracketLoop ((List.zipWith (fun a b => a - b) brackets.tail brackets).zip rates) income).1
    else
      loopTax ((List.zipWith (fun a b => a - b) brackets.tail brackets).zip rates)
        (rates.getLastD 0) income
  else 0

/-- The India slab loop of the source.  For an up_to slab the source
compares the remaining taxable income against slab limit minus the
tax-free threshold, taxing that much and continuing, or taxing the whole
remainder and stopping; an above slab taxes the whole remainder when it is
positive and otherwise falls through to the next slab. -/
def indiaSlabLoop : List Slab → ℚ → ℚ → ℚ
  | [], _, _ => 0
  | Slab.upTo limit rate :: rest, threshold, taxable =>
    if limit - threshold < taxable then
      (limit - threshold) * rate + indiaSlabLoop rest threshold (taxable - (limit - threshold))
    else taxable * rate
  | Slab.above _ rate :: rest, threshold, taxable =>
    if 0 < taxable then taxable * rate
    else indiaSlabLoop rest threshold taxable

/-- The India branch of calculate_tax_liability: income up to the tax-free
threshold is untaxed, income above it goes through the slab loop. -/
def indiaIncomeTax (tax_rules : CountryRules) (income : ℚ) : ℚ :=
  if income ≤ tax_rules.tax_free_threshold.getD 0 then 0
  else
    indiaSlabLoop (tax_rules.slabs.getD []) (tax_rules.tax_free_threshold.getD 0)
      (income - tax_rules.tax_free_threshold.getD 0)

/-- The income-tax part of calculate_tax_liability: India goes through the
slab system, every other country through the standard bracket system on
the income_brackets and rates keys (defaulting to empty lists when a key
is absent, as dict.get does). -/
def incomeTaxCalc (country : String) (tax_rules : CountryRules) (income : ℚ) : ℚ :=
  if country = "India" then indiaIncomeTax tax_rules income
  else stdIncomeTax (tax_rules.income_brackets.getD []) (tax_rules.rates.getD []) income

/-- The capital-gains part of calculate_tax_liability, mirroring the
if/elif chain of the source: gains must be positive, then UK by name, then
Canada by name, then presence of long_term, then individual, then
short_term; otherwise the tax stays 0. -/
def capitalGainsTaxCalc (country : String) (cg_rules : CapitalGainsRules)
    (capital_gains : ℚ) : ℚ :=
  if 0 < capital_gains then
    if country = "UK" then
      max 0 (capital_gains - cg_rules.allowance.getD 0) * (cg_rules.basic_rate.getD 0 / 100)
    else if country = "Canada" then
      capital_gains * cg_rules.inclusion_rate.getD 0.5 *
        ((cg_rules.rate_1.getD 15 + cg_rules.rate_2.getD 27) / 2 / 100)
    else if cg_rules.long_term.isSome then
      capital_gains * (cg_rules.long_term.getD 0 / 100)
    else if cg_rules.individual.isSome then
      capital_gains * (cg_rules.individual.getD 0 / 100)
    else if cg_rules.short_term.isSome then
      capital_gains * (cg_rules.short_term.getD 0 / 100)
    else 0
  else 0

/-- The result dictionary of calculate_tax_liability in the non-error
case: the echoed inputs and the four computed amounts. -/
structure TaxBreakdown where
  country : String
  income : ℚ
  capital_gains : ℚ
  income_tax : ℚ
  capital_gains_tax : ℚ
  total_tax : ℚ
  effective_rate : ℚ
deriving DecidableEq

/-- Return value of calculate_tax_liability: either the error dictionary
for an unknown country, or the filled-in result dictionary. -/
inductive TaxResult where
  | error (msg : String)
  | ok (r : TaxBreakdown)
deriving DecidableEq

/-- calculate_tax_liability of country_tax_db.py.  An unknown country key
yields the error dictionary before any computation; otherwise income tax,
capital-gains tax, their total, and the effective rate
total_tax / (income + capital_gains) * 100 when the denominator is
positive (0 otherwise) are assembled into the result. -/
def calculate_tax_liability (country : String) (income : ℚ)
    (capital_gains : ℚ) : TaxResult :=
  match TAX_RULES country with
  | none => TaxResult.error ("Tax rules not available for " ++ country)
  | some tax_rules =>
    let income_tax := incomeTaxCalc country tax_rules income
    let capital_gains_tax := capitalGainsTaxCalc country tax_rules.capital_gains capital_gains
    let total_tax := income_tax + capital_gains_tax
    let total_income := income + capital_gains
    TaxResult.ok
      { country := country
        income := income
        capital_gains := capital_gains
        income_tax := income_tax
        capital_gains_tax := capital_gains_tax
        total_tax := total_tax
        effective_rate := if 0 < total_income then total_tax / total_income * 100 else 0 }

/-- Income-tax field of a result, 0 for the error case. -/
def incomeTaxOf : TaxResult → ℚ
  | TaxResult.error _ => 0
  | TaxResult.ok r => r.income_tax

/-- Capital-gains-tax field of a result, 0 for the error case. -/
def cgTaxOf : TaxResult → ℚ
  | TaxResult.error _ => 0
  | TaxResult.ok r => r.capital_gains_tax

/-- Total-tax field of a result, 0 for the error case. -/
def totalTaxOf : TaxResult → ℚ
  | TaxResult.error _ => 0
  | TaxResult.ok r => r.total_tax

/-- Effective-rate field of a result, 0 for the error case. -/
def effRateOf : TaxResult → ℚ
  | TaxResult.error _ => 0
  | TaxResult.ok r => r.effective_rate

/-- Whether a result is the error dictionary. -/
def isErrorResult : TaxResult → Bool
  | TaxResult.error _ => true
  | TaxResult.ok _ => false

/-- The guard under which the elif branch keyed on short_term of the
capital-gains chain executes for a supported country: the country is
neither UK nor Canada, its capital-gains rules carry no long_term and no
individual key, and they do carry a short_term key. -/
def shortTermBranchTaken (country : String) : Bool :=
  match TAX_RULES country with
  | none => false
  | some tax_rules =>
    !(country = "UK") && !(country = "Canada") &&
      tax_rules.capital_gains.long_term.isNone &&
      tax_rules.capital_gains.individual.isNone &&
      tax_rules.capital_gains.short_term.isSome

/-- Modelled from the spec: walk brackets in ascending order, for each
bracket apply its marginal rate to the portion of income falling within
it, and apply the final bracket rate to all income above the last
explicit threshold.  Used only to exhibit the value the specified walk
yields on given bracket data, for comparison with the implementation. -/
def specBracketTax (brackets rates : List ℚ) (income : ℚ) : ℚ :=
  (List.zip brackets (brackets.tail.zip rates)).foldl
    (fun acc x => acc + x.2.2 * max 0 (min income x.2.1 - x.1)) 0
  + rates.getLastD 0 * max 0 (income - brackets.getLastD 0)

/-! ## Helper lemmas about the standard bracket loop -/

theorem loopTax_nil (lr rem : ℚ) : loopTax [] lr rem = if 0 < rem then rem * lr else 0 := by
  simp only [loopTax, bracketLoop]
  split
  · ring
  · rfl

theorem loopTax_cons_lt (s r lr rem : ℚ) (rest : List (ℚ × ℚ)) (h : s < rem) :
    loopTax ((s, r) :: rest) lr rem = s * r + loopTax rest lr (rem - s) := by
  simp only [loopTax, bracketLoop, if_pos h]
  split
  · ring
  · rfl

theorem loopTax_cons_ge (s r lr rem : ℚ) (rest : List (ℚ × ℚ)) (h : ¬ s < rem) :
    loopTax ((s, r) :: rest) lr rem = rem * r := by
  simp [loopTax, bracketLoop, if_neg h]

theorem loopTax_nonneg (pairs : List (ℚ × ℚ)) (lr : ℚ) (hlr : 0 ≤ lr) :
    (∀ x ∈ pairs, 0 ≤ x.1 ∧ 0 ≤ x.2) → ∀ rem : ℚ, 0 ≤ rem → 0 ≤ loopTax pairs lr rem := by
  induction pairs with
  | nil =>
    intro _ rem hrem
    rw [loopTax_nil]
    split
    · exact mul_nonneg hrem hlr
    · exact le_refl 0
  | cons hd tl ih =>
    intro hp rem hrem
    obtain ⟨s, r⟩ := hd
    obtain ⟨hs, hr⟩ := hp (s, r) (List.mem_cons_self (s, r) tl)
    have hp2 : ∀ x ∈ tl, 0 ≤ x.1 ∧ 0 ≤ x.2 := fun x hx => hp x (List.mem_cons_of_mem _ hx)
    by_cases h1 : s < rem
    · rw [loopTax_cons_lt s r lr rem tl h1]
      have := ih hp2 (rem - s) (by linarith)
      have hsr : 0 ≤ s * r := mul_nonneg hs hr
      linarith
    · rw [loopTax_cons_ge s r lr rem tl h1]
      exact mul_nonneg hrem hr

theorem loopTax_mono (pairs : List (ℚ × ℚ)) (lr : ℚ) (hlr : 0 ≤ lr) :
    (∀ x ∈ pairs, 0 ≤ x.1 ∧ 0 ≤ x.2) → ∀ a b : ℚ, 0 ≤ a → a ≤ b →
      loopTax pairs lr a ≤ loopTax pairs lr b := by
  induction pairs with
  | nil =>
    intro _ a b ha hab
    rw [loopTax_nil, loopTax_nil]
    by_cases h1 : 0 < a
    · rw [if_pos h1, if_pos (lt_of_lt_of_le h1 hab)]
      exact mul_le_mul_of_nonneg_right hab hlr
    · rw [if_neg h1]
      split
      · rename_i hb
        exact mul_nonneg (le_of_lt hb) hlr
      · exact le_refl 0
  | cons hd tl ih =>
    intro hp a b ha hab
    obtain ⟨s, r⟩ := hd
    obtain ⟨hs, hr⟩ := hp (s, r) (List.mem_cons_self (s, r) tl)
    have hp2 : ∀ x ∈ tl, 0 ≤ x.1 ∧ 0 ≤ x.2 := fun x hx => hp x (List.mem_cons_of_mem _ hx)
    by_cases h1 : s < a
    · have h2 : s < b := lt_of_lt_of_le h1 hab
      rw [loopTax_cons_lt s r lr a tl h1, loopTax_cons_lt s r lr b tl h2]
      have := ih hp2 (a - s) (b - s) (by linarith) (by linarith)
      linarith
    · by_cases h2 : s < b
      · rw [loopTax_cons_ge s r lr a tl h1, loopTax_cons_lt s r lr b tl h2]
        have hb := loopTax_nonneg tl lr hlr hp2 (b - s) (by linarith)
        have har : a * r ≤ s * r := mul_le_mul_of_nonneg_right (le_of_not_lt h1) hr
        linarith
      · rw [loopTax_cons_ge s r lr a tl h1, loopTax_cons_ge s r lr b tl h2]
        exact mul_le_mul_of_nonneg_right hab hr

/-! ## Per-country reductions of the income-tax computation to loopTax -/

theorem usa_income_tax_as_loop (i : ℚ) : incomeTaxOf (calculate_tax_liability "USA" i 0) =
    loopTax [((10475 : ℚ), (0.10 : ℚ)), (31410, 0.12), (47520, 0.22), (84645, 0.24),
      (40150, 0.32), (325700, 0.35)] 0.37 i := by
  simp [calculate_tax_liability, incomeTaxCalc, stdIncomeTax, TAX_RULES, incomeTaxOf]
  norm_num

theorem uk_income_tax_as_loop (i : ℚ) : incomeTaxOf (calculate_tax_liability "UK" i 0) =
    loopTax [((12570 : ℚ), (0.00 : ℚ)), (37700, 0.20), (74870, 0.40)] 0.45 i := by
  simp [calculate_tax_liability, incomeTaxCalc, stdIncomeTax, TAX_RULES, incomeTaxOf]
  norm_num

theorem canada_income_tax_zero (i : ℚ) :
    incomeTaxOf (calculate_tax_liability "Canada" i 0) = 0 := by
  simp [calculate_tax_liability, incomeTaxCalc, stdIncomeTax, TAX_RULES, incomeTaxOf,
    bracketLoop]

theorem france_income_tax_as_loop (i : ℚ) : incomeTaxOf (calculate_tax_liability "France" i 0) =
    loopTax [((11094 : ℚ), (0.00 : ℚ)), (17124, 0.11), (52079, 0.30), (89703, 0.41)] 0.45 i := by
  simp [calculate_tax_liability, incomeTaxCalc, stdIncomeTax, TAX_RULES, incomeTaxOf]
  norm_num

theorem germany_income_tax_as_loop (i : ℚ) : incomeTaxOf (calculate_tax_liability "Germany" i 0) =
    loopTax [((11604 : ℚ), (0.00 : ℚ)), (51865, 0.14), (214356, 0.42)] 0.45 i := by
  simp [calculate_tax_liability, incomeTaxCalc, stdIncomeTax, TAX_RULES, incomeTaxOf]
  norm_num

theorem italy_income_tax_as_loop (i : ℚ) : incomeTaxOf (calculate_tax_liability "Italy" i 0) =
    loopTax [((15000 : ℚ), (0.23 : ℚ)), (13000, 0.25), (22000, 0.35), (25000, 0.43),
      (45000, 0.45), (30000, 0.47)] 0.47 i := by
  simp [calculate_tax_liability, incomeTaxCalc, stdIncomeTax, TAX_RULES, incomeTaxOf]
  norm_num

theorem japan_income_tax_as_loop (i : ℚ) : incomeTaxOf (calculate_tax_liability "Japan" i 0) =
    loopTax [((1950000 : ℚ), (0.05 : ℚ)), (1350000, 0.10), (3650000, 0.20), (2050000, 0.23),
      (9000000, 0.33), (22000000, 0.40)] 0.45 i := by
  simp [calculate_tax_liability, incomeTaxCalc, stdIncomeTax, TAX_RULES, incomeTaxOf]
  norm_num

/-! ## Claim theorems -/

/-- Claim C1 (code_bug evidence): the claim states that for every non-India
country calculate_tax_liability walks the brackets of that country.  For
Canada this fails: the implementation reads the income_brackets and rates
keys, which the Canada entry does not carry (its data sits under
federal_tax_brackets and federal_rates), so the computed income tax is 0,
while the specified walk over the bracket data the ruleset declares for
Canada yields 17565.255 at income 100000. -/
theorem c1_canada_income_brackets_ignored :
    calculate_tax_liability "Canada" 100000 0 =
      TaxResult.ok ⟨"Canada", 100000, 0, 0, 0, 0, 0⟩ ∧
    (TAX_RULES "Canada").elim 0
      (fun r => specBracketTax (r.federal_tax_brackets.getD []) (r.federal_rates.getD []) 100000)
      = 17565.255 := by
  constructor
  · simp [calculate_tax_liability, incomeTaxCalc, capitalGainsTaxCalc, stdIncomeTax,
      loopTax, bracketLoop, TAX_RULES]
  · simp [TAX_RULES, specBracketTax]
    norm_num

/-- Claim C2: for every country key not present in TAX_RULES and any income
and capital gains, calculate_tax_liability returns the explicit
unsupported-country error dictionary, not a computed result (so no
exception and no silent zero tax). -/
theorem c2_unsupported_country_returns_error (country : String)
    (h : TAX_RULES country = none) (income capital_gains : ℚ) :
    calculate_tax_liability country income capital_gains =
      TaxResult.error ("Tax rules not available for " ++ country) := by
  simp [calculate_tax_liability, h]

/-- Witness for C2 at the spec example country Mars. -/
theorem c2_unsupported_country_returns_error_witness :
    calculate_tax_liability "Mars" 123 45 =
      TaxResult.error "Tax rules not available for Mars" :=
  c2_unsupported_country_returns_error "Mars" rfl 123 45

/-- Claim C3 counterexample: negative income is not rejected.  For the
supported country USA with income -100, calculate_tax_liability returns a
computed (non-error) result whose income tax is the negative amount -10,
so no validation error is raised before computation. -/
theorem c3_negative_income_not_rejected :
    calculate_tax_liability "USA" (-100) 0 =
      TaxResult.ok ⟨"USA", -100, 0, -10, 0, -10, 0⟩ := by
  simp [calculate_tax_liability, incomeTaxCalc, capitalGainsTaxCalc, stdIncomeTax,
    loopTax, bracketLoop, TAX_RULES]
  norm_num [bracketLoop]

/-- Claim C3 as amended: calculate_tax_liability performs no sign
validation at all; for every supported country and every income and
capital gains (negative included) it returns a computed result dictionary,
never a validation error. -/
theorem c3_amended_no_input_validation (country : String)
    (h : (TAX_RULES country).isSome) (income capital_gains : ℚ) :
    ∃ r : TaxBreakdown,
      calculate_tax_liability country income capital_gains = TaxResult.ok r := by
  cases hm : TAX_RULES country with
  | none => rw [hm] at h; simp at h
  | some tax_rules =>
    unfold calculate_tax_liability
    rw [hm]
    exact ⟨_, rfl⟩

/-- Witness for the amended C3 at USA with negative income. -/
theorem c3_amended_no_input_validation_witness :
    ∃ r : TaxBreakdown, calculate_tax_liability "USA" (-100) 0 = TaxResult.ok r :=
  c3_amended_no_input_validation "USA" rfl (-100) 0

/-- Claim C4 counterexample: the effective rate stored by the
implementation is a percentage.  For USA with income 10000 the result
carries effective_rate 10, while total tax divided by income plus gains is
1000 / 10000, and 10 is not that quotient. -/
theorem c4_effective_rate_is_percentage :
    calculate_tax_liability "USA" 10000 0 =
      TaxResult.ok ⟨"USA", 10000, 0, 1000, 0, 1000, 10⟩ ∧
    (10 : ℚ) ≠ 1000 / (10000 + 0) := by
  constructor
  · simp [calculate_tax_liability, incomeTaxCalc, capitalGainsTaxCalc, stdIncomeTax,
      loopTax, bracketLoop, TAX_RULES]
    norm_num [bracketLoop]
  · norm_num

/-- Claim C4 as amended: for every supported country and nonnegative
income and capital gains, the result is computed (not an error), its total
tax is income tax plus capital-gains tax, and its effective rate is total
tax divided by (income + capital gains) times 100, or 0 when income plus
capital gains is 0. -/
theorem c4_amended_totals_and_effective_rate (country : String)
    (h : (TAX_RULES country).isSome) (income capital_gains : ℚ)
    (hi : 0 ≤ income) (hg : 0 ≤ capital_gains) :
    isErrorResult (calculate_tax_liability country income capital_gains) = false ∧
    totalTaxOf (calculate_tax_liability country income capital_gains) =
      incomeTaxOf (calculate_tax_liability country income capital_gains) +
        cgTaxOf (calculate_tax_liability country income capital_gains) ∧
    effRateOf (calculate_tax_liability country income capital_gains) =
      (if income + capital_gains = 0 then 0
       else totalTaxOf (calculate_tax_liability country income capital_gains) /
         (income + capital_gains) * 100) := by
  cases hm : TAX_RULES country with
  | none => rw [hm] at h; simp at h
  | some tax_rules =>
    refine ⟨?_, ?_, ?_⟩
    · simp [calculate_tax_liability, hm, isErrorResult]
    · simp [calculate_tax_liability, hm, totalTaxOf, incomeTaxOf, cgTaxOf]
    · rcases (add_nonneg hi hg).eq_or_gt with hz | hp
      · rw [if_pos hz]
        simp [calculate_tax_liability, hm, effRateOf, hz]
      · rw [if_neg (ne_of_gt hp)]
        simp [calculate_tax_liability, hm, effRateOf, totalTaxOf, if_pos hp]

/-- Witness for the amended C4 at USA with income 10000 and no gains. -/
theorem c4_amended_totals_and_effective_rate_witness :
    isErrorResult (calculate_tax_liability "USA" 10000 0) = false ∧
    totalTaxOf (calculate_tax_liability "USA" 10000 0) =
      incomeTaxOf (calculate_tax_liability "USA" 10000 0) +
        cgTaxOf (calculate_tax_liability "USA" 10000 0) ∧
    effRateOf (calculate_tax_liability "USA" 10000 0) =
      (if (10000 : ℚ) + 0 = 0 then 0
       else totalTaxOf (calculate_tax_liability "USA" 10000 0) / ((10000 : ℚ) + 0) * 100) :=
  c4_amended_totals_and_effective_rate "USA" rfl 10000 0 (by decide) (by decide)

/-- Claim C5: for every supported country and positive capital gains, the
capital-gains tax equals exactly the formula of the shape the ruleset
declares for that country: allowance then flat basic rate for UK,
inclusion rate then average of the two declared rates for Canada, the
declared long-term rate of the differentiated pair for USA and India, and
the declared flat individual rate for France, Germany, Italy and Japan.
No country is taxed with a shape not declared for it. -/
theorem c5_capital_gains_shape_per_country (income capital_gains : ℚ)
    (hg : 0 < capital_gains) :
    cgTaxOf (calculate_tax_liability "UK" income capital_gains)
        = max 0 (capital_gains - 6000) * (10 / 100) ∧
    cgTaxOf (calculate_tax_liability "Canada" income capital_gains)
        = capital_gains * 0.5 * ((15 + 27) / 2 / 100) ∧
    cgTaxOf (calculate_tax_liability "USA" income capital_gains)
        = capital_gains * (20 / 100) ∧
    cgTaxOf (calculate_tax_liability "India" income capital_gains)
        = capital_gains * (12.5 / 100) ∧
    cgTaxOf (calculate_tax_liability "France" income capital_gains)
        = capital_gains * (30 / 100) ∧
    cgTaxOf (calculate_tax_liability "Germany" income capital_gains)
        = capital_gains * (26.375 / 100) ∧
    cgTaxOf (calculate_tax_liability "Italy" income capital_gains)
        = capital_gains * (26 / 100) ∧
    cgTaxOf (calculate_tax_liability "Japan" income capital_gains)
        = capital_gains * (20.315 / 100) := by
  refine ⟨?_, ?_, ?_, ?_, ?_, ?_, ?_, ?_⟩ <;>
    simp [calculate_tax_liability, TAX_RULES, cgTaxOf, capitalGainsTaxCalc, hg]

/-- Witness for C5 at gains 1000 (UK conjunct). -/
theorem c5_capital_gains_shape_per_country_witness :
    cgTaxOf (calculate_tax_liability "UK" 0 1000) =
      max 0 ((1000 : ℚ) - 6000) * (10 / 100) :=
  (c5_capital_gains_shape_per_country 0 1000 (by decide)).1

/-- Claim C6: for every supported bracket-based (non-India) country the
income tax computed by calculate_tax_liability is monotonically
non-decreasing in income on nonnegative incomes. -/
theorem c6_income_tax_monotone (country : String)
    (hc : country ∈ get_supported_countries) (hne : country ≠ "India")
    (i1 i2 : ℚ) (h0 : 0 ≤ i1) (h12 : i1 ≤ i2) :
    incomeTaxOf (calculate_tax_liability country i1 0) ≤
      incomeTaxOf (calculate_tax_liability country i2 0) := by
  simp only [get_supported_countries, List.mem_cons, List.not_mem_nil, or_false] at hc
  rcases hc with rfl|rfl|rfl|rfl|rfl|rfl|rfl|rfl
  · rw [usa_income_tax_as_loop i1, usa_income_tax_as_loop i2]
    exact loopTax_mono _ _ (by norm_num) (by norm_num) i1 i2 h0 h12
  · exact absurd rfl hne
  · rw [uk_income_tax_as_loop i1, uk_income_tax_as_loop i2]
    exact loopTax_mono _ _ (by norm_num) (by norm_num) i1 i2 h0 h12
  · rw [canada_income_tax_zero i1, canada_income_tax_zero i2]
  · rw [france_income_tax_as_loop i1, france_income_tax_as_loop i2]
    exact loopTax_mono _ _ (by norm_num) (by norm_num) i1 i2 h0 h12
  · rw [germany_income_tax_as_loop i1, germany_income_tax_as_loop i2]
    exact loopTax_mono _ _ (by norm_num) (by norm_num) i1 i2 h0 h12
  · rw [italy_income_tax_as_loop i1, italy_income_tax_as_loop i2]
    exact loopTax_mono _ _ (by norm_num) (by norm_num) i1 i2 h0 h12
  · rw [japan_income_tax_as_loop i1, japan_income_tax_as_loop i2]
    exact loopTax_mono _ _ (by norm_num) (by norm_num) i1 i2 h0 h12

/-- Witness for C6 at USA with incomes 0 and 1. -/
theorem c6_income_tax_monotone_witness :
    incomeTaxOf (calculate_tax_liability "USA" 0 0) ≤
      incomeTaxOf (calculate_tax_liability "USA" 1 0) :=
  c6_income_tax_monotone "USA" (by decide) (by decide) 0 1 (by decide) (by decide)

/-- Claim C7: for every supported country, zero income and zero capital
gains give a result with income tax 0, capital-gains tax 0, total tax 0
and effective rate 0. -/
theorem c7_zero_income_zero_gains_zero_tax (country : String)
    (hc : country ∈ get_supported_countries) :
    calculate_tax_liability country 0 0 = TaxResult.ok ⟨country, 0, 0, 0, 0, 0, 0⟩ := by
  simp only [get_supported_countries, List.mem_cons, List.not_mem_nil, or_false] at hc
  rcases hc with rfl|rfl|rfl|rfl|rfl|rfl|rfl|rfl <;>
      simp [calculate_tax_liability, TAX_RULES, incomeTaxCalc, capitalGainsTaxCalc,
        stdIncomeTax, loopTax, bracketLoop, indiaIncomeTax] <;>
    norm_num [bracketLoop]

/-- Witness for C7 at India. -/
theorem c7_zero_income_zero_gains_zero_tax_witness :
    calculate_tax_liability "India" 0 0 = TaxResult.ok ⟨"India", 0, 0, 0, 0, 0, 0⟩ :=
  c7_zero_income_zero_gains_zero_tax "India" (by decide)

/-- Claim C8: for USA at income 89405, which is exactly a bracket
boundary, the income tax is the sum of the fully taxed lower brackets
10475 at 10 percent, 31410 at 12 percent and 47520 at 22 percent, with
nothing taxed in any bracket above the boundary. -/
theorem c8_usa_bracket_boundary :
    incomeTaxOf (calculate_tax_liability "USA" 89405 0) =
      10475 * 0.10 + 31410 * 0.12 + 47520 * 0.22 := by
  simp [calculate_tax_liability, incomeTaxCalc, capitalGainsTaxCalc, stdIncomeTax,
    loopTax, bracketLoop, TAX_RULES, incomeTaxOf]
  norm_num [bracketLoop]

/-- Claim C9: for India at income 400000, exactly the tax-free threshold,
the income tax is 0. -/
theorem c9_india_threshold_income_tax_zero :
    incomeTaxOf (calculate_tax_liability "India" 400000 0) = 0 := by
  simp [calculate_tax_liability, incomeTaxCalc, capitalGainsTaxCalc, indiaIncomeTax,
    TAX_RULES, incomeTaxOf]

/-- Claim C10: the capital-gains branch keyed on short_term is dead: its
guard is false for every supported country, and in particular India with
positive capital gains is taxed at the long-term rate 12.5 percent, never
at the short-term rate. -/
theorem c10_short_term_branch_dead :
    (∀ country ∈ get_supported_countries, shortTermBranchTaken country = false) ∧
    ∀ income capital_gains : ℚ, 0 < capital_gains →
      cgTaxOf (calculate_tax_liability "India" income capital_gains) =
        capital_gains * (12.5 / 100) := by
  constructor
  · decide
  · intro income capital_gains hg
    simp [calculate_tax_liability, TAX_RULES, cgTaxOf, capitalGainsTaxCalc, hg]

/-- Witness for C10 at India with gains 1000. -/
theorem c10_short_term_branch_dead_witness :
    cgTaxOf (calculate_tax_liability "India" 0 1000) = 1000 * ((12.5 : ℚ) / 100) :=
  c10_short_term_branch_dead.2 0 1000 (by decide)
